import Mathlib

/-!
Verification development for the Tadashi repository (a Telegram tarot/horoscope
bot). The two source files, `Horoscope_bot_991.py` and `parser.py`, are shallowly
embedded below: Python dicts become association lists (which preserve insertion
order, as Python dicts do), `datetime` timestamps become natural numbers counting
seconds, `timedelta(days=d)` becomes `d * 86400`, and functions that mutate the
module-level `UserDB` instance are modelled as explicit state-passing functions
returning the updated store. File persistence (`UserDB._save`) is modelled by a
`file` field mirroring the JSON snapshot on disk: `_save` copies the in-memory
table into it.
-/

set_option maxRecDepth 4000

namespace Tadashi

/-! ### Association lists modelling Python dicts -/

/-- `d[k]` lookup on a Python dict modelled as an association list. -/
def dict_get {κ ν : Type} [DecidableEq κ] (k : κ) : List (κ × ν) → Option ν
  | [] => none
  | (k', v) :: rest => if k' = k then some v else dict_get k rest

/-- `d[k] = v` assignment on a Python dict: overwrite in place when the key is
present, append at the end otherwise (Python dicts keep insertion order). -/
def dict_set {κ ν : Type} [DecidableEq κ] (k : κ) (v : ν) : List (κ × ν) → List (κ × ν)
  | [] => [(k, v)]
  | (k', v') :: rest => if k' = k then (k, v) :: rest else (k', v') :: dict_set k v rest

theorem dict_get_set_self {κ ν : Type} [DecidableEq κ] (k : κ) (v : ν) (l : List (κ × ν)) :
    dict_get k (dict_set k v l) = some v := by
  induction l with
  | nil => simp [dict_get, dict_set]
  | cons hd tl ih =>
    obtain ⟨k', v'⟩ := hd
    by_cases h : k' = k
    · simp [dict_get, dict_set, h]
    · simp [dict_get, dict_set, h, ih]

theorem dict_get_set_ne {κ ν : Type} [DecidableEq κ] {k k' : κ} (v : ν) (l : List (κ × ν))
    (h : k' ≠ k) : dict_get k (dict_set k' v l) = dict_get k l := by
  induction l with
  | nil => simp [dict_get, dict_set, h]
  | cons hd tl ih =>
    obtain ⟨k'', v''⟩ := hd
    by_cases h2 : k'' = k'
    · subst h2
      simp [dict_get, dict_set, h]
    · simp only [dict_set, if_neg h2]
      by_cases h3 : k'' = k
      · simp [dict_get, h3]
      · simp [dict_get, h3, ih]

/-! ### Data model (`Horoscope_bot_991.py`, class `UserDB`)

A user record is the dict created by `UserDB.add_user` (lines 65-79):
`username`, a `subscription` sub-dict with `active`, `expires`, `type`,
`start_date`, `trial_used`, and `last_active`. -/

structure Subscription where
  active : Bool
  expires : Option Nat
  type : Option String
  start_date : Option Nat
  trial_used : Bool
deriving DecidableEq, Repr

structure User where
  username : Option String
  subscription : Subscription
  last_active : Nat
deriving DecidableEq, Repr

/-- The store: `users` is the in-memory dict `self.users`, `file` is the JSON
snapshot on disk (`users_db.json`); `_save` copies `users` into `file`. -/
structure UserDB where
  users : List (Nat × User)
  file : List (Nat × User)
deriving DecidableEq, Repr

def empty_db : UserDB := { users := [], file := [] }

/-- The default record written by `add_user` (lines 68-78). -/
def default_user (username : Option String) (now : Nat) : User :=
  { username := username
    subscription :=
      { active := false, expires := none, type := none, start_date := none, trial_used := false }
    last_active := now }

/-- `UserDB.add_user` (lines 65-79): insert a default inactive record when the
user is unseen, then `_save`; an existing record is left untouched. -/
def add_user (db : UserDB) (user_id : Nat) (username : Option String) (now : Nat) : UserDB :=
  match dict_get user_id db.users with
  | some _ => db
  | none =>
    let users' := dict_set user_id (default_user username now) db.users
    { users := users', file := users' }

/-- `UserDB.set_subscription` (lines 81-96): implicitly register unseen users,
then `update` the subscription dict with `active=True`, `expires=now+days`,
`type`, `start_date=now` (keeping `trial_used`), setting `trial_used=True`
additionally when the type is `'trial'`, and `_save`. -/
def set_subscription (db : UserDB) (user_id days : Nat) (sub_type : String) (now : Nat) : UserDB :=
  let db1 := match dict_get user_id db.users with
    | some _ => db
    | none => add_user db user_id none now
  match dict_get user_id db1.users with
  | none => db1
  | some u =>
    let s1 : Subscription :=
      { active := true
        expires := some (now + days * 86400)
        type := some sub_type
        start_date := some now
        trial_used := u.subscription.trial_used }
    let s2 := if sub_type = "trial" then { s1 with trial_used := true } else s1
    let users' := dict_set user_id { u with subscription := s2 } db1.users
    { users := users', file := users' }

/-- `UserDB.has_active_subscription` (lines 98-107): `False` for a missing
record or `active=False`; when `active=True` and `expires` is set and strictly
in the past (`datetime.now() > expires`), flip `active` to `False`, `_save`, and
return `False`; otherwise `True`. Returns the answer and the updated store. -/
def has_active_subscription (db : UserDB) (user_id now : Nat) : Bool × UserDB :=
  match dict_get user_id db.users with
  | none => (false, db)
  | some u =>
    if u.subscription.active = false then (false, db)
    else
      match u.subscription.expires with
      | none => (true, db)
      | some e =>
        if e < now then
          let users' :=
            dict_set user_id { u with subscription := { u.subscription with active := false } }
              db.users
          (false, { users := users', file := users' })
        else (true, db)

/-- `UserDB.can_use_trial` (lines 141-145): register the user when unseen, then
return `not trial_used`. Returns the answer and the (possibly grown) store. -/
def can_use_trial (db : UserDB) (user_id now : Nat) : Bool × UserDB :=
  let db1 := match dict_get user_id db.users with
    | some _ => db
    | none => add_user db user_id none now
  match dict_get user_id db1.users with
  | none => (true, db1)
  | some u => (!u.subscription.trial_used, db1)

/-! ### Pure views of the store, used to state properties -/

def trial_used_of (db : UserDB) (user_id : Nat) : Bool :=
  match dict_get user_id db.users with
  | none => false
  | some u => u.subscription.trial_used

def expires_of (db : UserDB) (user_id : Nat) : Option Nat :=
  match dict_get user_id db.users with
  | none => none
  | some u => u.subscription.expires

/-- A user counts as active at `now` when a record exists, `active` is set, and
`expires` (when set) is not strictly in the past. -/
def active_now (db : UserDB) (user_id now : Nat) : Bool :=
  match dict_get user_id db.users with
  | none => false
  | some u =>
    u.subscription.active &&
      (match u.subscription.expires with
       | none => true
       | some e => !decide (e < now))

/-! ### Content gating (`handle_text`, lines 612-624 and 660-672)

Both gated branches (horoscope menu / tarot card, and a concrete zodiac sign)
run the same check: `if user_id != 7254288870 and not db.has_active_subscription(user_id)`
deny with a keyboard that always offers "buy subscription", inserting a
"start trial" button at the top exactly when `db.can_use_trial(user_id)`;
otherwise the content is served. Python's `and` short-circuits, so
`has_active_subscription` (and its lazy-expiry write) runs only when the user
id differs from the hardcoded bypass id. -/

/-- Gate from `handle_text`: returns (content served?, trial button offered?,
updated store). The trial flag is only meaningful on denial. -/
def content_gate (db : UserDB) (user_id now : Nat) : Bool × Bool × UserDB :=
  if user_id ≠ 7254288870 then
    match has_active_subscription db user_id now with
    | (true, db1) => (true, false, db1)
    | (false, db1) =>
      let r := can_use_trial db1 user_id now
      (false, r.1, r.2)
  else (true, false, db)

/-- Modelled from the spec: "user is allowed if (admin allowlist) OR
(subscription active)". Stated for comparison with `content_gate`; the admin
allowlist is the configured `ADMIN_IDS` list. -/
def spec_gate (admin_ids : List Nat) (db : UserDB) (user_id now : Nat) : Bool :=
  decide (user_id ∈ admin_ids) || active_now db user_id now

/-! ### Payment callback (`handle_callback`, lines 238-295)

The handler reads `user_id`, `status` (field `state`), `amount` from the JSON
body; a missing or falsy field yields a 400 response. `amount` is parsed with
`float(amount)` and divided by 100; the float arithmetic is modelled by exact
rationals, which agrees with Python for integer minor-unit amounts at these
magnitudes. `none` models a missing or falsy field. `str.upper` is modelled for
ASCII, which does not change whether the result equals `"PAYED"`. -/

structure Plan where
  name : String
  price : ℚ
  days : Nat
deriving Repr

/-- `SUBSCRIPTION_PLANS["week"]` (line 42). -/
def week_plan : Plan := { name := "7 дней", price := 159, days := 7 }

/-- `SUBSCRIPTION_PLANS["month"]` (line 43). -/
def month_plan : Plan := { name := "30 дней", price := 359, days := 30 }

structure CallbackData where
  user_id : Option Nat
  status : Option String
  amount : Option ℚ

structure WebResponse where
  status : Nat
  text : String
deriving DecidableEq, Repr

/-- ASCII-only model of `str.upper`, sufficient for comparison with "PAYED". -/
def py_char_upper (c : Char) : Char :=
  if 'a' ≤ c ∧ c ≤ 'z' then Char.ofNat (c.toNat - 32) else c

def py_upper (s : String) : String := ⟨s.data.map py_char_upper⟩

/-- `handle_callback` (lines 238-295): validate field presence, no-op with a
200 on a non-"PAYED" status, match `amount/100` exactly against 359 then 159,
reject unknown amounts with a 400, and otherwise activate the matched plan's
day count with type `"paid"` and answer 200 "OK". -/
def handle_callback (db : UserDB) (d : CallbackData) (now : Nat) : WebResponse × UserDB :=
  match d.user_id with
  | none => ({ status := 400, text := "user_id is required" }, db)
  | some uid =>
    match d.status with
    | none => ({ status := 400, text := "status is required" }, db)
    | some st =>
      match d.amount with
      | none => ({ status := 400, text := "amount is required" }, db)
      | some amt =>
        if py_upper st ≠ "PAYED" then ({ status := 200, text := "Payment not confirmed" }, db)
        else
          let amount_rub : ℚ := amt / 100
          if amount_rub = 359 then
            ({ status := 200, text := "OK" }, set_subscription db uid month_plan.days "paid" now)
          else if amount_rub = 159 then
            ({ status := 200, text := "OK" }, set_subscription db uid week_plan.days "paid" now)
          else ({ status := 400, text := "Unknown payment amount" }, db)

/-! ### Operation sequences over the store

Every mutation of the module-level `db` in `Horoscope_bot_991.py` goes through
one of these four `UserDB` methods; a run of the bot is a sequence of them,
each evaluated at its own wall-clock time. -/

inductive DBOp where
  | reg (user_id : Nat) (username : Option String) (now : Nat)
  | activate (user_id days : Nat) (sub_type : String) (now : Nat)
  | check_active (user_id now : Nat)
  | check_trial (user_id now : Nat)

def db_step (db : UserDB) : DBOp → UserDB
  | .reg uid un now => add_user db uid un now
  | .activate uid days ty now => set_subscription db uid days ty now
  | .check_active uid now => (has_active_subscription db uid now).2
  | .check_trial uid now => (can_use_trial db uid now).2

def db_run (db : UserDB) : List DBOp → UserDB
  | [] => db
  | op :: ops => db_run (db_step db op) ops

/-! ### Python string primitives

`parser.py` manipulates strings with `str.strip`, `str.lower`, `str.replace`,
`str.split`, and the `in` substring test. These are modelled over the character
list underlying a `String`, so that every definition evaluates inside the
kernel. `str.lower` is modelled on the ASCII and Cyrillic ranges, the only
character classes occurring in this program's data. -/

def str_of (l : List Char) : String := ⟨l⟩

/-- `str.lower` for ASCII letters and the Cyrillic block used by the card and
sign names (А-Я and Ё). -/
def py_char_lower (c : Char) : Char :=
  if 'A' ≤ c ∧ c ≤ 'Z' then Char.ofNat (c.toNat + 32)
  else if c = 'Ё' then 'ё'
  else if 'А' ≤ c ∧ c ≤ 'Я' then Char.ofNat (c.toNat + 32)
  else c

def py_lower (s : String) : String := ⟨s.data.map py_char_lower⟩

/-- `str.strip()`: drop leading and trailing whitespace. -/
def py_strip (s : String) : String :=
  ⟨(((s.data.dropWhile Char.isWhitespace).reverse).dropWhile Char.isWhitespace).reverse⟩

/-- `str.split(c)` for a single-character separator. -/
def split_on_char (c : Char) : List Char → List (List Char)
  | [] => [[]]
  | x :: xs =>
    let r := split_on_char c xs
    if x = c then [] :: r
    else match r with
      | [] => [[x]]
      | h :: t => (x :: h) :: t

/-- The `in` substring test on character lists. -/
def contains_sub (pat : List Char) : List Char → Bool
  | [] => pat.isEmpty
  | x :: xs => pat.isPrefixOf (x :: xs) || contains_sub pat xs

def py_contains (s pat : String) : Bool := contains_sub pat.data s.data

/-- `str.replace` by a left-to-right non-overlapping scan, fuelled so that the
recursion is structural (the fuel `s.length` always suffices). An empty pattern
is returned unchanged; `parser.py` never replaces an empty pattern. -/
def replace_fuel (pat rep : List Char) : Nat → List Char → List Char
  | _, [] => []
  | 0, l => l
  | fuel+1, x :: xs =>
    if pat.isPrefixOf (x :: xs) && !pat.isEmpty then
      rep ++ replace_fuel pat rep fuel (xs.drop (pat.length - 1))
    else
      x :: replace_fuel pat rep fuel xs

def py_replace (s pat rep : String) : String :=
  ⟨replace_fuel pat.data rep.data s.data.length s.data⟩

/-- `sep.join(pieces)`. -/
def py_join (sep : String) : List String → String
  | [] => ""
  | [s] => s
  | s :: rest => s ++ sep ++ py_join sep rest

/-! ### `HoroscopeParser.get_horoscope` (`parser.py`, lines 31-92)

The HTML page is abstracted as a function from a CSS selector to the text of
the first matching element (`soup.select_one(sel).text`), `none` when nothing
matches; a network attempt either fails (`requests.RequestException`) or
delivers such a page. The three sentinel strings are the literals from the
source. -/

def invalid_sign_msg : String := "Неверный знак зодиака"

def no_text_msg : String := "Извините, не удалось получить гороскоп. Попробуйте позже."

def net_fail_msg : String :=
  "Извините, не удалось подключиться к сайту. Проверьте DNS или доступность сайта."

/-- `possible_selectors` (lines 58-67), in source order. -/
def possible_selectors : List String := [
  "p[class*=\"_5yHoW\"]",
  "p[class*=\"AjIPq\"]",
  "p[class*=\"horoscope-text\"]",
  "p[class*=\"article-text\"]",
  "div[class*=\"content\"] p",
  "article p",
  "div[class*=\"text-block\"] p",
  "p"]

/-- The selector loop (lines 69-72): take the first selector whose element
exists and has non-empty stripped text; the loop `break`s there. -/
def first_nonempty (page : String → Option String) : List String → Option String
  | [] => none
  | s :: rest =>
    match page s with
    | some t => if py_strip t = "" then first_nonempty page rest else some t
    | none => first_nonempty page rest

def sel_nonempty (page : String → Option String) (s : String) : Bool :=
  match page s with
  | some t => decide (py_strip t ≠ "")
  | none => false

/-- Lines 69-78: after the selector loop, the candidate's stripped text is
returned only when longer than 50 characters; otherwise the parse falls through
to the "no text" sentinel (line 88). Later selectors are not revisited. -/
def parse_attempt (page : String → Option String) : String :=
  match first_nonempty page possible_selectors with
  | some t => if 50 < (py_strip t).length then py_strip t else no_text_msg
  | none => no_text_msg

/-- Modelled from the spec: "accepts the first match whose trimmed text exceeds
a minimum length threshold (50 characters)" — i.e. selectors whose match is too
short are skipped in favour of later ones. Stated for comparison with
`parse_attempt`. -/
def spec_first_long (page : String → Option String) : List String → Option String
  | [] => none
  | s :: rest =>
    match page s with
    | some t => if 50 < (py_strip t).length then some (py_strip t) else spec_first_long page rest
    | none => spec_first_long page rest

inductive NetAttempt where
  | netfail
  | ok (page : String → Option String)

/-- `zodiac_signs` (lines 12-25): Russian key → (transliteration, emoji). -/
def zodiac_signs : List (String × String × String) := [
  ("овен", "aries", "♈️"),
  ("телец", "taurus", "♉️"),
  ("близнецы", "gemini", "♊️"),
  ("рак", "cancer", "♋️"),
  ("лев", "leo", "♌️"),
  ("дева", "virgo", "♍️"),
  ("весы", "libra", "♎️"),
  ("скорпион", "scorpio", "♏️"),
  ("стрелец", "sagittarius", "♐️"),
  ("козерог", "capricorn", "♑️"),
  ("водолей", "aquarius", "♒️"),
  ("рыбы", "pisces", "♓️")]

/-- `get_horoscope` (lines 31-92) with the three network attempts explicit:
lowercase and validate the sign, then up to 3 attempts; a network failure on
attempts 0 and 1 moves to the next attempt (after a fixed 5-second sleep, not
modelled), a network failure on attempt 2 returns the connection sentinel; the
first delivered page is parsed once and the loop `break`s, so a parse that
finds nothing is not retried. -/
def get_horoscope (sign : String) (o0 o1 o2 : NetAttempt) : String :=
  let s := py_lower sign
  match dict_get s zodiac_signs with
  | none => invalid_sign_msg
  | some _ =>
    match o0 with
    | .ok page => parse_attempt page
    | .netfail =>
      match o1 with
      | .ok page => parse_attempt page
      | .netfail =>
        match o2 with
        | .ok page => parse_attempt page
        | .netfail => net_fail_msg

/-! ### `HoroscopeParser.get_tarot` (`parser.py`, lines 121-262)

The tarot page is abstracted as the text of the title element
(`h2.h7yAL.xAIf2`) and the texts of the description container's `<p>` children,
each `none` when the element is absent. -/

structure TarotPage where
  title_text : Option String
  body_texts : Option (List String)

inductive TarotAttempt where
  | netfail
  | ok (page : TarotPage)

def tarot_images_path : String := "/root/TAROBOT/tarot_images"

/-- The triple returned after 3 failed attempts (line 141). -/
def tarot_net_fail_result : String × String × Option String :=
  ("Карта дня", "✨Карта дня✨\n📬 Не удалось подключиться к сайту для Таро.", none)

/-- Lines 151-157: extract the card name from the title — after a colon when
one is present, else by deleting the literal "Карта Таро сегодня" when it
occurs; finally `ё` is normalised to `е` and the result stripped. -/
def extract_card_name (card_title : String) : String :=
  let n := if card_title.data.contains ':' then
             py_strip (str_of ((split_on_char ':' card_title.data).getD 1 []))
           else if py_contains card_title "Карта Таро сегодня" then
             py_strip (py_replace card_title "Карта Таро сегодня" "")
           else card_title
  py_strip (py_replace n "ё" "е")

/-- Lines 160-161: blank-line-joined stripped paragraph texts, or the fixed
fallback when the description container is absent. -/
def tarot_description (page : TarotPage) : String :=
  match page.body_texts with
  | none => "Описание недоступно"
  | some ps => py_join "\n\n" ((ps.map py_strip).filter (fun s => s ≠ ""))

/-- `file_name_corrections` (lines 165-244): exact-match card-name → filename
table, keyed by names containing spaces. -/
def file_name_corrections : List (String × String) := [
  ("туз кубков", "туз_кубков.png"),
  ("двойка кубков", "двойка_кубков.png"),
  ("тройка кубков", "тройка_кубков.png"),
  ("четверка кубков", "четверка_кубков.png"),
  ("пятерка кубков", "пятерка_кубков.png"),
  ("шестерка кубков", "шестерка_кубков.png"),
  ("семерка кубков", "семерка_кубков.png"),
  ("восьмерка кубков", "восьмерка_кубков.png"),
  ("девятка кубков", "девятка_кубков.png"),
  ("десятка кубков", "десятка_кубков.png"),
  ("паж кубков", "паж_кубков.png"),
  ("рыцарь кубков", "рыцарь_кубков.png"),
  ("королева кубков", "королева_кубков.png"),
  ("король кубков", "король_кубков.png"),
  ("туз мечей", "туз_мечей.png"),
  ("двойка мечей", "двойка_мечей.png"),
  ("тройка мечей", "тройка_мечей.png"),
  ("четверка мечей", "четверка_мечей.png"),
  ("пятерка мечей", "пятерка_мечей.png"),
  ("шестерка мечей", "шестерка_мечей.png"),
  ("семерка мечей", "семерка_мечей.png"),
  ("восьмерка мечей", "восьмерка_мечей.png"),
  ("девятка мечей", "девятка_мечей.png"),
  ("десятка мечей", "десятка_мечей.png"),
  ("паж мечей", "паж_мечей.png"),
  ("рыцарь мечей", "рыцарь_мечей.png"),
  ("королева мечей", "королева_мечей.png"),
  ("король мечей", "король_мечей.png"),
  ("туз посохов", "туз_посохов.png"),
  ("двойка посохов", "двойка_посохов.png"),
  ("тройка посохов", "тройка_посохов.png"),
  ("четверка посохов", "четверка_посохов.png"),
  ("пятерка посохов", "пятерка_посохов.png"),
  ("шестерка посохов", "шестерка_посохов.png"),
  ("семерка посохов", "семерка_посохов.png"),
  ("восьмерка посохов", "восьмерка_посохов.png"),
  ("девятка посохов", "девятка_посохов.png"),
  ("десятка посохов", "десятка_посохов.png"),
  ("паж посохов", "паж_посохов.png"),
  ("рыцарь посохов", "рыцарь_посохов.png"),
  ("королева посохов", "королева_посохов.png"),
  ("король посохов", "король_посохов.png"),
  ("туз пентаклей", "туз_пентаклей.png"),
  ("двойка пентаклей", "двойка_пентаклей.png"),
  ("тройка пентаклей", "тройка_пентаклей.png"),
  ("четверка пентаклей", "четверка_пентаклей.png"),
  ("пятерка пентаклей", "пятерка_пентаклей.png"),
  ("шестерка пентаклей", "шестерка_пентаклей.png"),
  ("семерка пентаклей", "семерка_пентаклей.png"),
  ("восьмерка пентаклей", "восьмерка_пентаклей.png"),
  ("девятка пентаклей", "девятка_пентаклей.png"),
  ("десятка пентаклей", "десятка_пентаклей.png"),
  ("паж пентаклей", "паж_пентаклей.png"),
  ("рыцарь пентаклей", "рыцарь_пентаклей.png"),
  ("королева пентаклей", "королева_пентаклей.png"),
  ("король пентаклей", "король_пентаклей.png"),
  ("шут", "шут.png"),
  ("маг", "маг.png"),
  ("жрица", "жрица.png"),
  ("императрица", "императрица.png"),
  ("император", "император.png"),
  ("иерофант", "иерофант.png"),
  ("влюбленные", "влюбленные.png"),
  ("колесница", "колесница.png"),
  ("сила", "сила.png"),
  ("отшельник", "отшельник.png"),
  ("колесо фортуны", "колесо_фортуны.png"),
  ("справедливость", "справедливость.png"),
  ("повешенный", "повешенный.png"),
  ("смерть", "смерть.png"),
  ("умеренность", "умеренность.png"),
  ("дьявол", "дьявол.png"),
  ("башня", "башня.png"),
  ("звезда", "звезда.png"),
  ("луна", "луна.png"),
  ("солнце", "солнце.png"),
  ("суд", "суд.png"),
  ("мир", "мир.png")]

/-- Lines 164-245: the filename is the correction-table entry for the slugged
base (lowercase, spaces to underscores), falling back to `base ++ ".png"` when
the table has no entry. -/
def tarot_file_name (card_name : String) : String :=
  let base := py_replace (py_lower card_name) " " "_"
  match dict_get base file_name_corrections with
  | some f => f
  | none => base ++ ".png"

/-- Lines 143-258: the parse of a delivered tarot page. The `os.path.exists`
check at lines 249-252 only selects which log message is emitted; the returned
triple carries the joined image path whether or not the file exists on disk, so
the result does not depend on the filesystem. -/
def get_tarot_page (page : TarotPage) : String × String × Option String :=
  let card_title := match page.title_text with
    | some t => py_strip t
    | none => "Карта дня"
  let card_name := extract_card_name card_title
  let card_description := tarot_description page
  let file_name := tarot_file_name card_name
  let image_path := tarot_images_path ++ "/" ++ file_name
  (card_title, "✨ " ++ card_name ++ "✨\n\n📬 " ++ card_description, some image_path)

/-- `get_tarot` (lines 121-262) with the three network attempts explicit: the
retry loop covers only the GET; the first delivered page is parsed after the
loop `break`s. -/
def get_tarot (o0 o1 o2 : TarotAttempt) : String × String × Option String :=
  match o0 with
  | .ok page => get_tarot_page page
  | .netfail =>
    match o1 with
    | .ok page => get_tarot_page page
    | .netfail =>
      match o2 with
      | .ok page => get_tarot_page page
      | .netfail => tarot_net_fail_result

/-- Modelled from the spec: "returns the path only if the file exists on disk,
else returns \"no image\"" — the image component §4.2 prescribes, as a function
of the parsed card name and the set of files on disk. Stated for comparison
with `get_tarot_page`. -/
def spec_card_image (card_name : String) (files_on_disk : List String) : Option String :=
  let path := tarot_images_path ++ "/" ++ tarot_file_name card_name
  if path ∈ files_on_disk then some path else none

/-! ### Store lemmas -/

theorem add_user_present {db : UserDB} {user_id : Nat} {u : User} (un : Option String) (now : Nat)
    (h : dict_get user_id db.users = some u) : add_user db user_id un now = db := by
  simp [add_user, h]

theorem add_user_trial_used (db : UserDB) (user_id v : Nat) (un : Option String) (now : Nat) :
    trial_used_of (add_user db user_id un now) v = trial_used_of db v := by
  unfold add_user
  cases h : dict_get user_id db.users with
  | some u => rfl
  | none =>
    unfold trial_used_of
    by_cases hv : user_id = v
    · subst hv
      rw [dict_get_set_self, h]
      rfl
    · rw [dict_get_set_ne _ _ hv]

theorem can_use_trial_fst (db : UserDB) (user_id now : Nat) :
    (can_use_trial db user_id now).1 = !(trial_used_of db user_id) := by
  unfold can_use_trial
  cases h : dict_get user_id db.users with
  | some u => simp [h, trial_used_of]
  | none => simp [h, add_user, dict_get_set_self, trial_used_of, default_user]

theorem can_use_trial_used (db : UserDB) (user_id v now : Nat) :
    trial_used_of ((can_use_trial db user_id now).2) v = trial_used_of db v := by
  unfold can_use_trial
  cases h : dict_get user_id db.users with
  | some u => simp [h]
  | none =>
    simp only [h]
    cases h2 : dict_get user_id (add_user db user_id none now).users with
    | none => simp [add_user_trial_used]
    | some u => simp [add_user_trial_used]

theorem has_active_none {db : UserDB} {user_id : Nat} (now : Nat)
    (h : dict_get user_id db.users = none) :
    has_active_subscription db user_id now = (false, db) := by
  simp [has_active_subscription, h]

theorem has_active_inactive {db : UserDB} {user_id : Nat} {u : User} (now : Nat)
    (h : dict_get user_id db.users = some u) (ha : u.subscription.active = false) :
    has_active_subscription db user_id now = (false, db) := by
  simp [has_active_subscription, h, ha]

theorem has_active_expired {db : UserDB} {user_id now : Nat} {u : User} {e : Nat}
    (h : dict_get user_id db.users = some u) (ha : u.subscription.active = true)
    (he : u.subscription.expires = some e) (hlt : e < now) :
    has_active_subscription db user_id now =
      (false,
        { users := dict_set user_id
            { u with subscription := { u.subscription with active := false } } db.users
          file := dict_set user_id
            { u with subscription := { u.subscription with active := false } } db.users }) := by
  simp [has_active_subscription, h, ha, he, hlt]

theorem has_active_fst (db : UserDB) (user_id now : Nat) :
    (has_active_subscription db user_id now).1 = active_now db user_id now := by
  unfold has_active_subscription active_now
  cases h : dict_get user_id db.users with
  | none => rfl
  | some u =>
    cases hact : u.subscription.active with
    | false => simp [hact]
    | true =>
      cases he : u.subscription.expires with
      | none => simp [hact, he]
      | some e => by_cases hlt : e < now <;> simp [hact, he, hlt]

theorem has_active_trial_used (db : UserDB) (user_id v now : Nat) :
    trial_used_of ((has_active_subscription db user_id now).2) v = trial_used_of db v := by
  unfold has_active_subscription
  cases h : dict_get user_id db.users with
  | none => rfl
  | some u =>
    by_cases hact : u.subscription.active = false
    · simp [hact]
    · cases he : u.subscription.expires with
      | none => simp [hact, he]
      | some e =>
        by_cases hlt : e < now
        · simp only [he]
          simp only [if_neg hact, if_pos hlt]
          unfold trial_used_of
          by_cases hv : user_id = v
          · subst hv
            rw [dict_get_set_self, h]
          · rw [dict_get_set_ne _ _ hv]
        · simp [hact, he, hlt]

theorem set_sub_shape (db : UserDB) (user_id days : Nat) (ty : String) (now : Nat) :
    ∃ u0 : User,
      dict_get user_id (set_subscription db user_id days ty now).users
        = some { username := u0.username
                 subscription :=
                   { active := true
                     expires := some (now + days * 86400)
                     type := some ty
                     start_date := some now
                     trial_used := if ty = "trial" then true else u0.subscription.trial_used }
                 last_active := u0.last_active }
      ∧ u0.subscription.trial_used = trial_used_of db user_id := by
  unfold set_subscription
  cases h : dict_get user_id db.users with
  | some u =>
    refine ⟨u, ?_, ?_⟩
    · simp only [h, dict_get_set_self, Option.some.injEq]
      split <;> rfl
    · simp [trial_used_of, h]
  | none =>
    refine ⟨default_user none now, ?_, ?_⟩
    · simp only [h, add_user, dict_get_set_self, Option.some.injEq]
      split <;> rfl
    · simp [trial_used_of, h, default_user]

theorem set_sub_expires (db : UserDB) (user_id days : Nat) (ty : String) (now : Nat) :
    expires_of (set_subscription db user_id days ty now) user_id = some (now + days * 86400) := by
  obtain ⟨u0, hg, -⟩ := set_sub_shape db user_id days ty now
  simp [expires_of, hg]

theorem set_sub_trial_self (db : UserDB) (user_id days : Nat) (ty : String) (now : Nat) :
    trial_used_of (set_subscription db user_id days ty now) user_id
      = (if ty = "trial" then true else trial_used_of db user_id) := by
  obtain ⟨u0, hg, ht⟩ := set_sub_shape db user_id days ty now
  simp [trial_used_of, hg, ht]

theorem set_sub_active_now (db : UserDB) (user_id days : Nat) (ty : String) (now : Nat) :
    active_now (set_subscription db user_id days ty now) user_id now = true := by
  obtain ⟨u0, hg, -⟩ := set_sub_shape db user_id days ty now
  simp [active_now, hg, Nat.not_lt, Nat.le_add_right]

theorem set_sub_trial_other {user_id v : Nat} (db : UserDB) (days : Nat) (ty : String) (now : Nat)
    (hv : user_id ≠ v) :
    trial_used_of (set_subscription db user_id days ty now) v = trial_used_of db v := by
  unfold set_subscription
  cases h : dict_get user_id db.users with
  | some u => simp [h, trial_used_of, dict_get_set_ne _ _ hv]
  | none =>
    simp only [h, add_user]
    rw [dict_get_set_self]
    unfold trial_used_of
    rw [dict_get_set_ne _ _ hv, dict_get_set_ne _ _ hv]

theorem trial_mono_step (db : UserDB) (op : DBOp) (user_id : Nat)
    (h : trial_used_of db user_id = true) :
    trial_used_of (db_step db op) user_id = true := by
  cases op with
  | reg uid un now => rw [db_step, add_user_trial_used]; exact h
  | activate uid days ty now =>
    by_cases hv : uid = user_id
    · subst hv
      rw [db_step, set_sub_trial_self, h]
      split <;> rfl
    · rw [db_step, set_sub_trial_other db days ty now hv]; exact h
  | check_active uid now => rw [db_step, has_active_trial_used]; exact h
  | check_trial uid now => rw [db_step, can_use_trial_used]; exact h

theorem trial_mono_run (db : UserDB) (ops : List DBOp) (user_id : Nat)
    (h : trial_used_of db user_id = true) :
    trial_used_of (db_run db ops) user_id = true := by
  induction ops generalizing db with
  | nil => exact h
  | cons op ops ih => exact ih (db_step db op) (trial_mono_step db op user_id h)

/-! ### Concrete stores and callbacks used by witnesses and counterexamples -/

def user_expired : User :=
  { username := some "alice"
    subscription :=
      { active := true, expires := some 5, type := some "paid", start_date := some 0,
        trial_used := true }
    last_active := 0 }

def user_other : User := default_user (some "bob") 3

def db_expired : UserDB :=
  { users := [(1, user_expired), (2, user_other)], file := [(1, user_expired), (2, user_other)] }

def cb_week : CallbackData := { user_id := some 42, status := some "PAYED", amount := some 15900 }

def cb_failed_noamount : CallbackData :=
  { user_id := some 42, status := some "FAILED", amount := none }

def cb_canceled : CallbackData := { user_id := some 42, status := some "CANCELED", amount := some 100 }

def ops_after_trial : List DBOp :=
  [.activate 1 30 "paid" 5, .reg 1 (some "x") 6, .check_active 1 7, .check_trial 1 8]

/-! ### Claims -/

/-- C1: `has_active_subscription` returns false whenever the stored `expires`
timestamp is strictly in the past, even if `active` was last persisted true; in
that case it flips `active` to false and persists the corrected table (the
saved file equals the updated in-memory table); and for a missing record or
`active=false` it returns false and leaves the store untouched. -/
theorem C1_lazy_expiry (db : UserDB) (user_id now : Nat) (u : User) (e : Nat) :
    (dict_get user_id db.users = none → has_active_subscription db user_id now = (false, db))
    ∧ (dict_get user_id db.users = some u → u.subscription.active = false →
        has_active_subscription db user_id now = (false, db))
    ∧ (dict_get user_id db.users = some u → u.subscription.active = true →
        u.subscription.expires = some e → e < now →
        (has_active_subscription db user_id now).1 = false
        ∧ dict_get user_id ((has_active_subscription db user_id now).2).users
            = some { u with subscription := { u.subscription with active := false } }
        ∧ ((has_active_subscription db user_id now).2).file
            = ((has_active_subscription db user_id now).2).users) := by
  refine ⟨fun h => has_active_none now h,
          fun h ha => has_active_inactive now h ha,
          fun h ha he hlt => ?_⟩
  rw [has_active_expired h ha he hlt]
  exact ⟨rfl, dict_get_set_self _ _ _, rfl⟩

theorem C1_witness :
    has_active_subscription empty_db 9 10 = (false, empty_db)
    ∧ has_active_subscription db_expired 2 10 = (false, db_expired)
    ∧ ((has_active_subscription db_expired 1 10).1 = false
       ∧ dict_get 1 ((has_active_subscription db_expired 1 10).2).users
           = some { user_expired with
                    subscription := { user_expired.subscription with active := false } }
       ∧ ((has_active_subscription db_expired 1 10).2).file
           = ((has_active_subscription db_expired 1 10).2).users) :=
  ⟨(C1_lazy_expiry empty_db 9 10 user_expired 5).1 rfl,
   (C1_lazy_expiry db_expired 2 10 user_other 5).2.1 rfl rfl,
   (C1_lazy_expiry db_expired 1 10 user_expired 5).2.2 rfl rfl rfl (by decide)⟩

/-- C2 counterexample: the gate in `handle_text` does not consult the admin
allowlist (`ADMIN_IDS`); it hardcodes the single user id 7254288870. With an
empty allowlist the hardcoded user is served without any subscription, and with
allowlist `[5]` the admin user 5 is denied — both contradict "served iff admin
allowlist OR active subscription". -/
theorem C2_allowlist_cex :
    spec_gate [] empty_db 7254288870 0 = false
    ∧ (content_gate empty_db 7254288870 0).1 = true
    ∧ spec_gate [5] empty_db 5 0 = true
    ∧ (content_gate empty_db 5 0).1 = false := by decide

/-- C2 (amended): content is served iff the user is the hardcoded bypass id
7254288870 or has an active subscription; when denied, the reply offers the
start-trial option exactly when the user's `trial_used` flag is unset (a user
with no record counts as eligible). -/
theorem C2_gate (db : UserDB) (user_id now : Nat) :
    (content_gate db user_id now).1
      = (decide (user_id = 7254288870) || active_now db user_id now)
    ∧ ((content_gate db user_id now).1 = false →
        (content_gate db user_id now).2.1 = !(trial_used_of db user_id)) := by
  by_cases hb : user_id = 7254288870
  · subst hb
    refine ⟨by simp [content_gate], fun hfalse => ?_⟩
    simp [content_gate] at hfalse
  · have hfst := has_active_fst db user_id now
    have htr := has_active_trial_used db user_id user_id now
    unfold content_gate
    rw [if_pos hb]
    rcases hA : has_active_subscription db user_id now with ⟨b, db1⟩
    rw [hA] at hfst htr
    simp only at hfst htr
    cases b
    · refine ⟨by simp [hb, ← hfst], fun _ => ?_⟩
      simp [can_use_trial_fst, htr]
    · exact ⟨by simp [← hfst], fun hfalse => by simp at hfalse⟩

theorem C2_gate_witness :
    (content_gate empty_db 5 0).1 = false
    ∧ (content_gate empty_db 5 0).2.1 = !(trial_used_of empty_db 5) :=
  ⟨by decide, (C2_gate empty_db 5 0).2 (by decide)⟩

/-- C3: a success callback whose amount divided by 100 exactly equals a catalog
price activates exactly that plan's day count with type `"paid"` (leaving the
user active) and answers 200 "OK"; any other amount mutates nothing and answers
400. -/
theorem C3_payment_exact (db : UserDB) (d : CallbackData) (now user_id : Nat) (st : String)
    (amt : ℚ)
    (hu : d.user_id = some user_id) (hs : d.status = some st) (ha : d.amount = some amt)
    (hp : py_upper st = "PAYED") :
    (amt / 100 = 359 →
      handle_callback db d now
        = ({ status := 200, text := "OK" }, set_subscription db user_id month_plan.days "paid" now)
      ∧ active_now (handle_callback db d now).2 user_id now = true)
    ∧ (amt / 100 = 159 →
      handle_callback db d now
        = ({ status := 200, text := "OK" }, set_subscription db user_id week_plan.days "paid" now)
      ∧ active_now (handle_callback db d now).2 user_id now = true)
    ∧ (amt / 100 ≠ 359 → amt / 100 ≠ 159 →
      (handle_callback db d now).1.status = 400 ∧ (handle_callback db d now).2 = db) := by
  have hnot : ¬(py_upper st ≠ "PAYED") := by rw [hp]; simp
  refine ⟨fun h359 => ?_, fun h159 => ?_, fun hn1 hn2 => ?_⟩
  · have heq : handle_callback db d now
        = ({ status := 200, text := "OK" },
           set_subscription db user_id month_plan.days "paid" now) := by
      simp [handle_callback, hu, hs, ha, hnot, h359]
    exact ⟨heq, by rw [heq]; exact set_sub_active_now db user_id month_plan.days "paid" now⟩
  · have h359 : ¬(amt / 100 = 359) := by rw [h159]; norm_num
    have heq : handle_callback db d now
        = ({ status := 200, text := "OK" },
           set_subscription db user_id week_plan.days "paid" now) := by
      simp [handle_callback, hu, hs, ha, hnot, h359, h159]
    exact ⟨heq, by rw [heq]; exact set_sub_active_now db user_id week_plan.days "paid" now⟩
  · have heq : handle_callback db d now = ({ status := 400, text := "Unknown payment amount" }, db) := by
      simp [handle_callback, hu, hs, ha, hnot, hn1, hn2]
    rw [heq]
    exact ⟨rfl, rfl⟩

theorem C3_witness :
    (handle_callback empty_db cb_week 0
      = ({ status := 200, text := "OK" }, set_subscription empty_db 42 week_plan.days "paid" 0))
    ∧ active_now (handle_callback empty_db cb_week 0).2 42 0 = true :=
  (C3_payment_exact empty_db cb_week 0 42 "PAYED" 15900 rfl rfl rfl (by decide)).2.1 (by norm_num)

/-- C4 counterexample: a callback whose `status` is present and not "PAYED" but
whose `amount` field is missing is answered 400 ("amount is required"), not
200, because the presence checks run before the status comparison. (No
subscription state is mutated either way.) -/
theorem C4_nonpayed_cex :
    cb_failed_noamount.status = some "FAILED"
    ∧ py_upper "FAILED" ≠ "PAYED"
    ∧ (handle_callback empty_db cb_failed_noamount 0).1
        = { status := 400, text := "amount is required" }
    ∧ (handle_callback empty_db cb_failed_noamount 0).2 = empty_db := by decide

/-- C4 (amended): a callback whose `status` is present but not the success
sentinel "PAYED" (case-insensitively) never mutates subscription state, and
when the required `userId` and `amount` fields are also present it is
acknowledged with a 200 "Payment not confirmed" response. -/
theorem C4_nonpayed (db : UserDB) (d : CallbackData) (now : Nat) (st : String)
    (hs : d.status = some st) (hne : py_upper st ≠ "PAYED") :
    (handle_callback db d now).2 = db
    ∧ (∀ (user_id : Nat) (amt : ℚ), d.user_id = some user_id → d.amount = some amt →
        handle_callback db d now = ({ status := 200, text := "Payment not confirmed" }, db)) := by
  constructor
  · unfold handle_callback
    cases hu : d.user_id with
    | none => rfl
    | some uid =>
      rw [hs]
      cases ha : d.amount with
      | none => rfl
      | some amt => simp [hne]
  · intro uid amt hu ha
    simp [handle_callback, hu, hs, ha, hne]

theorem C4_nonpayed_witness :
    handle_callback empty_db cb_canceled 0
      = ({ status := 200, text := "Payment not confirmed" }, empty_db) :=
  (C4_nonpayed empty_db cb_canceled 0 "CANCELED" rfl (by decide)).2 42 100 rfl rfl

/-- C5: a trial activation sets `trial_used`; once `trial_used` is true no
sequence of store operations (registration, paid or trial activations,
lazy-expiry checks, trial checks) ever resets it; consequently
`can_use_trial` answers false forever after one trial activation. -/
theorem C5_trial_once (db : UserDB) (user_id days now now2 : Nat) (ops : List DBOp) :
    trial_used_of (set_subscription db user_id days "trial" now) user_id = true
    ∧ (trial_used_of db user_id = true → trial_used_of (db_run db ops) user_id = true)
    ∧ (can_use_trial (db_run (set_subscription db user_id days "trial" now) ops) user_id now2).1
        = false := by
  have h1 : trial_used_of (set_subscription db user_id days "trial" now) user_id = true := by
    rw [set_sub_trial_self]
    simp
  refine ⟨h1, fun h => trial_mono_run db ops user_id h, ?_⟩
  rw [can_use_trial_fst, trial_mono_run _ ops user_id h1]
  rfl

theorem C5_witness :
    trial_used_of (set_subscription empty_db 1 3 "trial" 0) 1 = true
    ∧ trial_used_of (db_run (set_subscription empty_db 1 3 "trial" 0) ops_after_trial) 1 = true
    ∧ (can_use_trial (db_run (set_subscription empty_db 1 3 "trial" 0) ops_after_trial) 1 9).1
        = false :=
  ⟨(C5_trial_once empty_db 1 3 0 9 ops_after_trial).1,
   (C5_trial_once (set_subscription empty_db 1 3 "trial" 0) 1 3 0 9 ops_after_trial).2.1
     (by decide),
   (C5_trial_once empty_db 1 3 0 9 ops_after_trial).2.2⟩

/-- C9: activating twice leaves `expires` at the second call's time plus the
second call's day count — the latest activation overwrites, durations never
accumulate. -/
theorem C9_expires_latest (db : UserDB) (user_id d1 d2 : Nat) (t1 t2 : String) (n1 n2 : Nat) :
    expires_of (set_subscription (set_subscription db user_id d1 t1 n1) user_id d2 t2 n2) user_id
      = some (n2 + d2 * 86400) :=
  set_sub_expires _ _ _ _ _

/-- C10: the lazy-expiry correction changes only the expired user's
`subscription.active` field; their `username`, `expires`, `type`, `start_date`,
`trial_used` and `last_active` are kept, and every other user's record is left
unchanged. -/
theorem C10_flip_frame (db : UserDB) (user_id now : Nat) (u : User) (e v : Nat)
    (hu : dict_get user_id db.users = some u)
    (ha : u.subscription.active = true)
    (he : u.subscription.expires = some e)
    (hlt : e < now)
    (hv : v ≠ user_id) :
    dict_get user_id ((has_active_subscription db user_id now).2).users
      = some { username := u.username
               subscription :=
                 { active := false
                   expires := u.subscription.expires
                   type := u.subscription.type
                   start_date := u.subscription.start_date
                   trial_used := u.subscription.trial_used }
               last_active := u.last_active }
    ∧ dict_get v ((has_active_subscription db user_id now).2).users = dict_get v db.users := by
  rw [has_active_expired hu ha he hlt]
  exact ⟨dict_get_set_self _ _ _, dict_get_set_ne _ _ (Ne.symm hv)⟩

theorem C10_witness :
    dict_get 1 ((has_active_subscription db_expired 1 10).2).users
      = some { username := user_expired.username
               subscription :=
                 { active := false
                   expires := user_expired.subscription.expires
                   type := user_expired.subscription.type
                   start_date := user_expired.subscription.start_date
                   trial_used := user_expired.subscription.trial_used }
               last_active := user_expired.last_active }
    ∧ dict_get 2 ((has_active_subscription db_expired 1 10).2).users
        = dict_get 2 db_expired.users :=
  C10_flip_frame db_expired 1 10 user_expired 5 2 rfl rfl rfl (by decide) (by decide)

/-! ### Parser lemmas and claims -/

theorem first_nonempty_append (page : String → Option String) (pre l : List String)
    (h : ∀ s ∈ pre, sel_nonempty page s = false) :
    first_nonempty page (pre ++ l) = first_nonempty page l := by
  induction pre with
  | nil => rfl
  | cons s rest ih =>
    have hs := h s (List.mem_cons_self s rest)
    have hrest : ∀ s' ∈ rest, sel_nonempty page s' = false :=
      fun s' h' => h s' (List.mem_cons_of_mem s h')
    unfold sel_nonempty at hs
    cases hp : page s with
    | none =>
      rw [hp] at hs
      simp only [List.cons_append, first_nonempty, hp]
      exact ih hrest
    | some t =>
      rw [hp] at hs
      have hempty : py_strip t = "" := by simpa using hs
      simp only [List.cons_append, first_nonempty, hp, hempty, if_pos]
      exact ih hrest

def longT : String := "Сегодня день будет полон неожиданных встреч и приятных открытий для вас."

def pageC : String → Option String := fun s =>
  if s = "p[class*=\"_5yHoW\"]" then some "коротко"
  else if s = "p" then some longT else none

def pageW : String → Option String := fun s =>
  if s = "p[class*=\"_5yHoW\"]" then some longT else none

def tarot_page_death : TarotPage :=
  { title_text := some "Карта Таро сегодня: Смерть", body_texts := some ["Судьба."] }

/-- C6 (code bug): the tarot fetch returns the resolved image path
unconditionally — the result does not depend on what files exist on disk, while
the spec's behaviour (`spec_card_image`) returns "no image" when the file is
absent. The resolution itself does go through the exact-match correction table
("смерть" has an entry) and falls back to the generic slug transform for a name
with no table entry ("новая карта"). -/
theorem C6_image_path_unconditional :
    (get_tarot (.ok tarot_page_death) .netfail .netfail).2.2
      = some "/root/TAROBOT/tarot_images/смерть.png"
    ∧ spec_card_image "Смерть" [] = none
    ∧ dict_get "смерть" file_name_corrections = some "смерть.png"
    ∧ tarot_file_name "новая карта" = "новая_карта.png"
    ∧ dict_get "новая_карта" file_name_corrections = none := by decide

/-- C7 counterexample: when an earlier selector matches non-empty but short
text (here the first selector yields "коротко"), the loop stops there and the
length gate then rejects it, so the parse returns the sentinel even though the
generic `p` selector holds a qualifying text longer than 50 characters — the
claim's "first selector match whose trimmed text exceeds 50 characters"
(`spec_first_long`) would return that text. -/
theorem C7_first_match_cex :
    spec_first_long pageC possible_selectors = some longT
    ∧ parse_attempt pageC = no_text_msg
    ∧ no_text_msg ≠ longT := by decide

/-- C7 (amended): the selectors are tried in their fixed order and the loop
stops at the first selector whose element exists with non-empty stripped text;
that candidate's stripped text is returned only when longer than 50 characters,
otherwise the sentinel is returned and later selectors are not consulted. In
particular no text of 50 characters or fewer is ever returned as content. -/
theorem C7_selector_gate :
    (∀ (page : String → Option String) (pre post : List String) (s t : String),
      possible_selectors = pre ++ s :: post →
      (∀ s', s' ∈ pre → sel_nonempty page s' = false) →
      page s = some t → py_strip t ≠ "" →
      parse_attempt page = if 50 < (py_strip t).length then py_strip t else no_text_msg)
    ∧ ∀ page : String → Option String, parse_attempt page ≠ no_text_msg →
        50 < (parse_attempt page).length := by
  constructor
  · intro page pre post s t hsel hpre hp hne
    unfold parse_attempt
    rw [hsel, first_nonempty_append page pre (s :: post) hpre]
    simp [first_nonempty, hp, hne]
  · intro page h
    cases hf : first_nonempty page possible_selectors with
    | none => simp [parse_attempt, hf] at h
    | some t =>
      simp only [parse_attempt, hf] at h ⊢
      by_cases hl : 50 < (py_strip t).length
      · rw [if_pos hl]; exact hl
      · rw [if_neg hl] at h; exact absurd rfl h

theorem C7_witness :
    parse_attempt pageW
      = if 50 < (py_strip longT).length then py_strip longT else no_text_msg :=
  C7_selector_gate.1 pageW []
    ["p[class*=\"AjIPq\"]", "p[class*=\"horoscope-text\"]", "p[class*=\"article-text\"]",
     "div[class*=\"content\"] p", "article p", "div[class*=\"text-block\"] p", "p"]
    "p[class*=\"_5yHoW\"]" longT rfl (by simp) rfl (by decide)

/-- C8: for a valid sign, three consecutive network failures yield the
connection sentinel (distinct from the no-content sentinel); a delivered page
is parsed exactly once regardless of the remaining attempts — a parse that
finds nothing is not retried; the tarot fetch likewise returns its fixed
sentinel triple after three failures. The embedding is total, so no exception
escapes the boundary. -/
theorem C8_retry_sentinel (sign : String) (o1 o2 : NetAttempt) (page : String → Option String)
    (h : dict_get (py_lower sign) zodiac_signs ≠ none) :
    get_horoscope sign .netfail .netfail .netfail = net_fail_msg
    ∧ get_horoscope sign (.ok page) o1 o2 = parse_attempt page
    ∧ get_tarot .netfail .netfail .netfail = tarot_net_fail_result
    ∧ net_fail_msg ≠ no_text_msg := by
  have h2 : ∃ v, dict_get (py_lower sign) zodiac_signs = some v := by
    cases hx : dict_get (py_lower sign) zodiac_signs with
    | none => exact absurd hx h
    | some v => exact ⟨v, rfl⟩
  obtain ⟨v, hv⟩ := h2
  refine ⟨?_, ?_, rfl, by decide⟩
  · simp [get_horoscope, hv]
  · simp [get_horoscope, hv]

theorem C8_witness :
    get_horoscope "Овен" .netfail .netfail .netfail = net_fail_msg
    ∧ get_horoscope "Овен" (.ok (fun _ => none)) .netfail .netfail
        = parse_attempt (fun _ => none)
    ∧ get_tarot .netfail .netfail .netfail = tarot_net_fail_result
    ∧ net_fail_msg ≠ no_text_msg :=
  C8_retry_sentinel "Овен" .netfail .netfail (fun _ => none) (by decide)

end Tadashi
